import Mathlib

/-!
Shallow embedding of `src/comms/src/builder/builder.rs` (tari comms builder).

The builder composes a p2p messaging node out of collaborator services.  The
collaborators (peer manager, connection manager, control service, outbound
message service/pool, inbound message service, domain connector) live outside
the visible source; they are embedded as records of their construction
arguments, and the success/failure of each fallible collaborator constructor,
together with every random in-process address draw, is supplied through an
explicit environment record.  The builder, start and shutdown logic itself is
translated statement-by-statement from the source.
-/

/-- Modelled from the spec: `InprocAddress` is an opaque process-local endpoint
identifier; a default (zero) value exists and `is_default` tests for it;
`random()` draws a fresh address (supplied here via the environment). -/
structure InprocAddress where
  token : Nat
deriving DecidableEq, Repr

instance : Inhabited InprocAddress := ⟨⟨0⟩⟩

/-- Modelled from the spec: the default-valued address test used by
`make_peer_connection_config`. -/
def InprocAddress.is_default (a : InprocAddress) : Bool :=
  a = (default : InprocAddress)

/-- Modelled from the spec: the node's own identity, opaque here. -/
structure NodeIdentity where
  key : Nat
deriving DecidableEq, Repr

/-- Modelled from the spec: `CommsRoutes` is an ordered mapping from a
message-type key to the in-process address where that type is delivered;
`inner` exposes the pairs, `get_address` looks a key up. -/
structure CommsRoutes (MType : Type) where
  inner : List (MType × InprocAddress)
deriving DecidableEq, Repr

/-- Modelled from the spec: route-table lookup used by `create_connector`. -/
def CommsRoutes.get_address {MType : Type} [DecidableEq MType]
    (routes : CommsRoutes MType) (message_type : MType) : Option InprocAddress :=
  (routes.inner.find? (fun p => p.1 = message_type)).map Prod.snd

/-- Opaque control-service configuration. -/
structure ControlServiceConfig where
  payload : Nat
deriving DecidableEq, Repr

/-- Opaque outbound-message-pool configuration (has a default). -/
structure OutboundMessagePoolConfig where
  payload : Nat
deriving DecidableEq, Repr

instance : Inhabited OutboundMessagePoolConfig := ⟨⟨0⟩⟩

/-- Peer-connection configuration; only the `message_sink_address` field is
inspected by the builder, the rest is opaque. Its default carries the
default (zero) sink address. -/
structure PeerConnectionConfig where
  message_sink_address : InprocAddress
  rest : Nat
deriving DecidableEq, Repr

instance : Inhabited PeerConnectionConfig := ⟨⟨default, 0⟩⟩

/-- Modelled from the spec: the peer directory, opaque except for the storage
marker it was created from. -/
structure PeerManager where
  has_storage : Bool
deriving DecidableEq, Repr

/-- Modelled from the spec: the control service (the optional listener),
recorded as its construction arguments. -/
structure ControlService where
  node_identity : NodeIdentity
  config : ControlServiceConfig
deriving DecidableEq, Repr

/-- A live handle for a started control service. -/
structure ControlServiceHandle where
  service : ControlService
deriving DecidableEq, Repr

/-- Modelled from the spec: the connection manager, recorded as its
construction arguments (identity, peer directory, peer-connection config). -/
structure ConnectionManager where
  node_identity : NodeIdentity
  peer_manager : PeerManager
  config : PeerConnectionConfig
deriving DecidableEq, Repr

/-- Modelled from the spec: the outbound message service, recorded as its
construction arguments. -/
structure OutboundMessageService where
  node_identity : NodeIdentity
  message_sink_address : InprocAddress
  peer_manager : PeerManager
deriving DecidableEq, Repr

/-- Modelled from the spec: the outbound message pool, recorded as its
construction arguments; `message_sink_address` is its intake and
`requeue_address` its self-requeue address. -/
structure OutboundMessagePool where
  config : OutboundMessagePoolConfig
  message_sink_address : InprocAddress
  requeue_address : InprocAddress
  peer_manager : PeerManager
  connection_manager : ConnectionManager
deriving DecidableEq, Repr

/-- Modelled from the spec: the inbound message broker, holding the routes
registered on it in registration order. -/
structure InboundMessageBroker (MType : Type) where
  routes : List (MType × InprocAddress)
deriving DecidableEq, Repr

/-- Modelled from the spec: `InboundMessageBroker::new` starts with no routes. -/
def InboundMessageBroker.new (MType : Type) : InboundMessageBroker MType :=
  ⟨[]⟩

/-- Modelled from the spec: `route` adds one (message type, address) route,
returning the broker. -/
def InboundMessageBroker.route {MType : Type} (broker : InboundMessageBroker MType)
    (message_type : MType) (address : InprocAddress) : InboundMessageBroker MType :=
  ⟨broker.routes ++ [(message_type, address)]⟩

/-- Modelled from the spec: the inbound message service, recorded as its
construction arguments. -/
structure InboundMessageService (MType : Type) where
  node_identity : NodeIdentity
  message_sink_address : InprocAddress
  inbound_message_broker : InboundMessageBroker MType
  oms : OutboundMessageService
  peer_manager : PeerManager
deriving DecidableEq, Repr

/-- Modelled from the spec: a domain connector opened by `create_connector`,
bound to the in-process address it listens on. -/
structure DomainConnector where
  address : InprocAddress
deriving DecidableEq, Repr

/-- The builder error enumeration from the source, collaborator errors carried
as opaque numeric codes. -/
inductive CommsBuilderError where
  | PeerManagerError (e : Nat)
  | InboundMessageServiceError (e : Nat)
  | OutboundMessageServiceError (e : Nat)
  | OutboundMessagePoolError (e : Nat)
  | NodeIdentityNotSet
  | DealerProxyError (e : Nat)
  | RoutesNotDefined
deriving DecidableEq, Repr

/-- The services error enumeration from the source. -/
inductive CommsServicesError where
  | ControlServiceError (e : Nat)
  | ConnectionManagerError (e : Nat)
  | UncleanShutdown
  | MessageTypeNotRegistered
  | ConnectorError (e : Nat)
  | InboundMessageBrokerError (e : Nat)
deriving DecidableEq, Repr

/-- The mutable configuration accumulator `CommsBuilder`: one optional slot per
downstream service configuration, exactly as in the source. -/
structure CommsBuilder (MType : Type) where
  peer_storage_factory : Option Nat
  routes : Option (CommsRoutes MType)
  control_service_config : Option ControlServiceConfig
  omp_config : Option OutboundMessagePoolConfig
  node_identity : Option NodeIdentity
  peer_conn_config : Option PeerConnectionConfig
deriving DecidableEq, Repr

/-- `CommsBuilder::new`: every slot empty. -/
def CommsBuilder.new (MType : Type) : CommsBuilder MType :=
  { peer_storage_factory := none, routes := none, control_service_config := none,
    omp_config := none, node_identity := none, peer_conn_config := none }

/-- `with_routes`: store the route table, overwriting any previous value. -/
def CommsBuilder.with_routes {MType : Type} (b : CommsBuilder MType)
    (routes : CommsRoutes MType) : CommsBuilder MType :=
  { b with routes := some routes }

/-- `with_peer_storage`: store the storage factory (opaque marker). -/
def CommsBuilder.with_peer_storage {MType : Type} (b : CommsBuilder MType)
    (factory : Nat) : CommsBuilder MType :=
  { b with peer_storage_factory := some factory }

/-- `configure_control_service`: store the control-service config. -/
def CommsBuilder.configure_control_service {MType : Type} (b : CommsBuilder MType)
    (config : ControlServiceConfig) : CommsBuilder MType :=
  { b with control_service_config := some config }

/-- `configure_outbound_message_pool`: store the pool config. -/
def CommsBuilder.configure_outbound_message_pool {MType : Type} (b : CommsBuilder MType)
    (config : OutboundMessagePoolConfig) : CommsBuilder MType :=
  { b with omp_config := some config }

/-- `with_node_identity`: store the node identity. -/
def CommsBuilder.with_node_identity {MType : Type} (b : CommsBuilder MType)
    (node_identity : NodeIdentity) : CommsBuilder MType :=
  { b with node_identity := some node_identity }

/-- `configure_peer_connections`: store the peer-connection config. -/
def CommsBuilder.configure_peer_connections {MType : Type} (b : CommsBuilder MType)
    (config : PeerConnectionConfig) : CommsBuilder MType :=
  { b with peer_conn_config := some config }

/-- Environment for `build()`: the two random address draws and the outcome of
every fallible collaborator constructor (`none` = success, `some e` = the
collaborator failed with opaque error `e`). -/
structure BuildEnv where
  peer_sink_fresh : InprocAddress
  outbound_sink_fresh : InprocAddress
  peer_manager_err : Option Nat
  oms_err : Option Nat
  omp_err : Option Nat
  ims_err : Option Nat
deriving DecidableEq, Repr

/-- `make_peer_connection_config`: take the configured value or the default;
if its `message_sink_address` is the default, replace it with a freshly
generated in-process address (the environment's draw). -/
def CommsBuilder.make_peer_connection_config {MType : Type} (b : CommsBuilder MType)
    (fresh : InprocAddress) : PeerConnectionConfig :=
  let config := b.peer_conn_config.getD default
  if config.message_sink_address.is_default then
    { config with message_sink_address := fresh }
  else
    config

/-- `make_node_identity`: the configured identity, or `NodeIdentityNotSet`. -/
def CommsBuilder.make_node_identity {MType : Type} (b : CommsBuilder MType) :
    Except CommsBuilderError NodeIdentity :=
  match b.node_identity with
  | some id => Except.ok id
  | none => Except.error CommsBuilderError.NodeIdentityNotSet

/-- `make_inbound_message_broker`: fold the route table into a fresh broker,
registering each (message type, address) pair in order. -/
def CommsBuilder.make_inbound_message_broker {MType : Type} (routes : CommsRoutes MType) :
    InboundMessageBroker MType :=
  routes.inner.foldl
    (fun broker p => broker.route p.1 p.2)
    (InboundMessageBroker.new MType)

/-- The not-yet-started service container returned by a successful `build()`. -/
structure CommsServiceContainer (MType : Type) where
  routes : CommsRoutes MType
  connection_manager : ConnectionManager
  control_service : Option ControlService
  inbound_message_service : InboundMessageService MType
  outbound_message_pool : OutboundMessagePool
  outbound_message_service : OutboundMessageService
deriving DecidableEq, Repr

/-- `CommsBuilder::build`, translated statement-by-statement from the source:
resolve identity, construct the peer manager, resolve the peer-connection
config, construct the optional control service, the connection manager, the
outbound message service and pool (both bound to one fresh outbound sink
address), only then take the routes (`RoutesNotDefined` if absent), fold the
broker, and construct the inbound message service bound to the resolved
peer-connection sink address. -/
def CommsBuilder.build {MType : Type} (b : CommsBuilder MType) (env : BuildEnv) :
    Except CommsBuilderError (CommsServiceContainer MType) :=
  match b.node_identity with
  | none => Except.error CommsBuilderError.NodeIdentityNotSet
  | some node_identity =>
    match env.peer_manager_err with
    | some e => Except.error (CommsBuilderError.PeerManagerError e)
    | none =>
      let peer_manager : PeerManager := ⟨b.peer_storage_factory.isSome⟩
      let peer_conn_config := b.make_peer_connection_config env.peer_sink_fresh
      let control_service :=
        b.control_service_config.map (fun config => ControlService.mk node_identity config)
      let connection_manager : ConnectionManager :=
        ⟨node_identity, peer_manager, peer_conn_config⟩
      let outbound_message_sink_address := env.outbound_sink_fresh
      match env.oms_err with
      | some e => Except.error (CommsBuilderError.OutboundMessageServiceError e)
      | none =>
        let outbound_message_service : OutboundMessageService :=
          ⟨node_identity, outbound_message_sink_address, peer_manager⟩
        match env.omp_err with
        | some e => Except.error (CommsBuilderError.OutboundMessagePoolError e)
        | none =>
          let outbound_message_pool : OutboundMessagePool :=
            ⟨b.omp_config.getD default, outbound_message_sink_address,
              outbound_message_sink_address, peer_manager, connection_manager⟩
          match b.routes with
          | none => Except.error CommsBuilderError.RoutesNotDefined
          | some routes =>
            let inbound_message_broker := CommsBuilder.make_inbound_message_broker routes
            match env.ims_err with
            | some e => Except.error (CommsBuilderError.InboundMessageServiceError e)
            | none =>
              let inbound_message_service : InboundMessageService MType :=
                ⟨node_identity, peer_conn_config.message_sink_address,
                  inbound_message_broker, outbound_message_service, peer_manager⟩
              Except.ok
                { routes := routes
                  connection_manager := connection_manager
                  control_service := control_service
                  inbound_message_service := inbound_message_service
                  outbound_message_pool := outbound_message_pool
                  outbound_message_service := outbound_message_service }

/-- Environment for `start()`: the outcome of `ControlService::serve` (`none` =
success). -/
structure StartEnv where
  serve_err : Option Nat
deriving DecidableEq, Repr

/-- One side effect of `start()`: which service had its start invoked. -/
inductive StartEvent where
  | controlServiceServe
  | inboundMessageServiceStart
  | outboundMessagePoolStart
deriving DecidableEq, Repr

/-- The running node returned by a successful `start()`. -/
structure CommsServices (MType : Type) where
  outbound_message_service : OutboundMessageService
  routes : CommsRoutes MType
  control_service_handle : Option ControlServiceHandle
  connection_manager : ConnectionManager
deriving DecidableEq, Repr

/-- `CommsServiceContainer::start`, from the source: serve the control service
first when present (a serve failure surfaces as `ControlServiceError` and
aborts the sequence), then start the inbound message service, then the
outbound message pool.  The second component is the trace of start
invocations, in order. -/
def CommsServiceContainer.start {MType : Type} (c : CommsServiceContainer MType)
    (env : StartEnv) :
    Except CommsServicesError (CommsServices MType) × List StartEvent :=
  match c.control_service with
  | some control_service =>
    match env.serve_err with
    | some e =>
      (Except.error (CommsServicesError.ControlServiceError e),
        [StartEvent.controlServiceServe])
    | none =>
      (Except.ok
        { outbound_message_service := c.outbound_message_service
          routes := c.routes
          control_service_handle := some ⟨control_service⟩
          connection_manager := c.connection_manager },
        [StartEvent.controlServiceServe, StartEvent.inboundMessageServiceStart,
          StartEvent.outboundMessagePoolStart])
  | none =>
    (Except.ok
      { outbound_message_service := c.outbound_message_service
        routes := c.routes
        control_service_handle := none
        connection_manager := c.connection_manager },
      [StartEvent.inboundMessageServiceStart, StartEvent.outboundMessagePoolStart])

/-- Environment for `shutdown()`: the outcome of the control-service handle's
shutdown, whether `Arc::try_unwrap` on the shared connection manager succeeds
(no other holder retains a reference), and the sequence of sub-results
returned by `ConnectionManager::shutdown` (`none` = Ok). -/
structure ShutdownEnv where
  control_shutdown_err : Option Nat
  conn_manager_exclusive : Bool
  conn_manager_results : List (Option Nat)
deriving DecidableEq, Repr

/-- The result recorded for the control-service handle's shutdown, mapped into
`CommsServicesError` as in the source. -/
def control_service_shutdown_results {MType : Type} (s : CommsServices MType)
    (env : ShutdownEnv) : List (Except CommsServicesError Unit) :=
  match s.control_service_handle with
  | none => []
  | some _ =>
    match env.control_shutdown_err with
    | none => [Except.ok ()]
    | some e => [Except.error (CommsServicesError.ControlServiceError e)]

/-- The connection-manager shutdown sub-results, mapped into
`CommsServicesError` as in the source. -/
def connection_manager_shutdown_results (env : ShutdownEnv) :
    List (Except CommsServicesError Unit) :=
  env.conn_manager_results.map (fun r =>
    match r with
    | none => Except.ok ()
    | some e => Except.error (CommsServicesError.ConnectionManagerError e))

/-- The full list of recorded shutdown results, in recording order: first the
control-service result (when a handle exists), then — only when exclusive
ownership of the connection manager could be reclaimed — each of the
connection manager's sub-results.  On failure to reclaim ownership only a
diagnostic is logged and nothing is recorded. -/
def CommsServices.shutdown_results {MType : Type} (s : CommsServices MType)
    (env : ShutdownEnv) : List (Except CommsServicesError Unit) :=
  let results := control_service_shutdown_results s env
  if env.conn_manager_exclusive then
    results ++ connection_manager_shutdown_results env
  else
    results

/-- `check_clean_shutdown` from the source: scan the recorded results, set a
flag on any error, and return `UncleanShutdown` when the flag is set. -/
def check_clean_shutdown (results : List (Except CommsServicesError Unit)) :
    Except CommsServicesError Unit :=
  let has_error := results.foldl
    (fun acc result =>
      match result with
      | Except.error _ => true
      | Except.ok _ => acc)
    false
  if has_error then
    Except.error CommsServicesError.UncleanShutdown
  else
    Except.ok ()

/-- `CommsServices::shutdown`: record the per-service results and aggregate
them with `check_clean_shutdown`. -/
def CommsServices.shutdown {MType : Type} (s : CommsServices MType)
    (env : ShutdownEnv) : Except CommsServicesError Unit :=
  check_clean_shutdown (s.shutdown_results env)

/-- Environment for `create_connector`: the outcome of
`DomainConnector::listen` at each address (`none` = bind succeeds). -/
structure ConnectorEnv where
  listen_err : InprocAddress → Option Nat

/-- `CommsServices::create_connector`: look the message type up in the route
table (`MessageTypeNotRegistered` if absent) and open a connector bound to the
resolved address (`ConnectorError` if the bind fails). -/
def CommsServices.create_connector {MType : Type} [DecidableEq MType]
    (s : CommsServices MType) (env : ConnectorEnv) (message_type : MType) :
    Except CommsServicesError DomainConnector :=
  match s.routes.get_address message_type with
  | none => Except.error CommsServicesError.MessageTypeNotRegistered
  | some addr =>
    match env.listen_err addr with
    | some e => Except.error (CommsServicesError.ConnectorError e)
    | none => Except.ok ⟨addr⟩

/-- `get_outbound_message_service`: return the shared handle. -/
def CommsServices.get_outbound_message_service {MType : Type}
    (s : CommsServices MType) : OutboundMessageService :=
  s.outbound_message_service

/-- Whether a recorded shutdown result is a failure. -/
def exceptIsError (r : Except CommsServicesError Unit) : Bool :=
  match r with
  | Except.error _ => true
  | Except.ok _ => false

/-- The container a successful `build()` produces, read off the success branch
of `CommsBuilder.build`, parameterized by the resolved identity and routes. -/
def built_container {MType : Type} (b : CommsBuilder MType) (env : BuildEnv)
    (id : NodeIdentity) (routes : CommsRoutes MType) : CommsServiceContainer MType :=
  let peer_manager : PeerManager := ⟨b.peer_storage_factory.isSome⟩
  let peer_conn_config := b.make_peer_connection_config env.peer_sink_fresh
  let connection_manager : ConnectionManager := ⟨id, peer_manager, peer_conn_config⟩
  let outbound_message_service : OutboundMessageService :=
    ⟨id, env.outbound_sink_fresh, peer_manager⟩
  { routes := routes
    connection_manager := connection_manager
    control_service := b.control_service_config.map (fun config => ControlService.mk id config)
    inbound_message_service :=
      ⟨id, peer_conn_config.message_sink_address,
        CommsBuilder.make_inbound_message_broker routes, outbound_message_service, peer_manager⟩
    outbound_message_pool :=
      ⟨b.omp_config.getD default, env.outbound_sink_fresh, env.outbound_sink_fresh,
        peer_manager, connection_manager⟩
    outbound_message_service := outbound_message_service }

/-- Inversion for a successful `build()`: it forces an identity and routes to
be present, every fallible collaborator constructor to have succeeded, and
determines the returned container exactly. -/
theorem build_ok_characterization {MType : Type} (b : CommsBuilder MType) (env : BuildEnv)
    (c : CommsServiceContainer MType) (hb : b.build env = Except.ok c) :
    ∃ id routes, b.node_identity = some id ∧ b.routes = some routes ∧
      env.peer_manager_err = none ∧ env.oms_err = none ∧ env.omp_err = none ∧
      env.ims_err = none ∧ c = built_container b env id routes := by
  unfold CommsBuilder.build at hb
  cases hid : b.node_identity with
  | none => rw [hid] at hb; exact Except.noConfusion hb
  | some id =>
  rw [hid] at hb
  cases hpm : env.peer_manager_err with
  | some e => rw [hpm] at hb; exact Except.noConfusion hb
  | none =>
  rw [hpm] at hb
  cases homs : env.oms_err with
  | some e => rw [homs] at hb; exact Except.noConfusion hb
  | none =>
  rw [homs] at hb
  cases homp : env.omp_err with
  | some e => rw [homp] at hb; exact Except.noConfusion hb
  | none =>
  rw [homp] at hb
  cases hroutes : b.routes with
  | none => rw [hroutes] at hb; exact Except.noConfusion hb
  | some routes =>
  rw [hroutes] at hb
  cases hims : env.ims_err with
  | some e => rw [hims] at hb; exact Except.noConfusion hb
  | none =>
  rw [hims] at hb
  exact ⟨id, routes, rfl, rfl, rfl, rfl, rfl, rfl, (Except.ok.inj hb).symm⟩

/-- Claim C1: for every builder configuration in which no node identity was
supplied, `build()` fails with `NodeIdentityNotSet`, regardless of the other
configuration slots and of the collaborator constructor outcomes. -/
theorem build_without_identity_fails {MType : Type} (b : CommsBuilder MType)
    (env : BuildEnv) (h : b.node_identity = none) :
    b.build env = Except.error CommsBuilderError.NodeIdentityNotSet := by
  unfold CommsBuilder.build
  rw [h]

/-- Witness for C1: a builder with routes, control-service, pool, storage and
peer-connection configuration all set, but no identity, still fails with
`NodeIdentityNotSet`. -/
theorem build_without_identity_fails_witness :
    ((((((CommsBuilder.new Nat).with_routes ⟨[(1, ⟨5⟩)]⟩).configure_control_service
        ⟨3⟩).configure_outbound_message_pool ⟨4⟩).with_peer_storage
        7).configure_peer_connections ⟨⟨9⟩, 0⟩).node_identity = none ∧
    ((((((CommsBuilder.new Nat).with_routes ⟨[(1, ⟨5⟩)]⟩).configure_control_service
        ⟨3⟩).configure_outbound_message_pool ⟨4⟩).with_peer_storage
        7).configure_peer_connections ⟨⟨9⟩, 0⟩).build ⟨⟨1⟩, ⟨2⟩, none, none, none, none⟩
      = Except.error CommsBuilderError.NodeIdentityNotSet :=
  ⟨rfl, build_without_identity_fails _ _ rfl⟩

/-- A build environment in which every collaborator constructor succeeds. -/
def envAllOk : BuildEnv :=
  ⟨⟨1⟩, ⟨2⟩, none, none, none, none⟩

/-- Counterexample to C2 as stated: a builder with no route table AND no node
identity does not fail with `RoutesNotDefined` — it fails with
`NodeIdentityNotSet`, because the routes check runs only after identity
resolution (and after the fallible collaborator constructions). -/
theorem build_without_routes_counterexample :
    (CommsBuilder.new Nat).routes = none ∧
    (CommsBuilder.new Nat).build envAllOk
      = Except.error CommsBuilderError.NodeIdentityNotSet ∧
    (CommsBuilder.new Nat).build envAllOk
      ≠ Except.error CommsBuilderError.RoutesNotDefined := by
  refine ⟨rfl, rfl, fun h => ?_⟩
  have h2 : CommsBuilderError.NodeIdentityNotSet = CommsBuilderError.RoutesNotDefined :=
    Except.error.inj h
  exact CommsBuilderError.noConfusion h2

/-- Claim C2 (amended): for every builder with a node identity but no route
table, whenever the peer-manager, outbound-service and outbound-pool
constructions succeed, `build()` fails with `RoutesNotDefined` — and this
holds for any combination of the remaining configuration slots. -/
theorem build_without_routes_fails {MType : Type} (b : CommsBuilder MType)
    (env : BuildEnv) (id : NodeIdentity) (hid : b.node_identity = some id)
    (hr : b.routes = none) (hpm : env.peer_manager_err = none)
    (homs : env.oms_err = none) (homp : env.omp_err = none) :
    b.build env = Except.error CommsBuilderError.RoutesNotDefined := by
  unfold CommsBuilder.build
  rw [hid, hpm, homs, homp, hr]

/-- Witness for the amended C2: identity set, routes absent, all collaborator
constructions succeeding. -/
theorem build_without_routes_fails_witness :
    ((CommsBuilder.new Nat).with_node_identity ⟨11⟩).build envAllOk
      = Except.error CommsBuilderError.RoutesNotDefined :=
  build_without_routes_fails _ _ ⟨11⟩ rfl rfl rfl rfl rfl

/-- Claim C10: with no route table supplied, the routes check is reached only
after identity resolution and the peer-manager, outbound-service and
outbound-pool constructions: a missing identity yields `NodeIdentityNotSet`
(never `RoutesNotDefined`), and a failure of any of those collaborator
constructors is returned instead of `RoutesNotDefined`. -/
theorem build_routes_checked_late {MType : Type} (b : CommsBuilder MType)
    (env : BuildEnv) (_hr : b.routes = none) :
    (b.node_identity = none →
      b.build env = Except.error CommsBuilderError.NodeIdentityNotSet) ∧
    (∀ id e, b.node_identity = some id → env.peer_manager_err = some e →
      b.build env = Except.error (CommsBuilderError.PeerManagerError e)) ∧
    (∀ id e, b.node_identity = some id → env.peer_manager_err = none →
      env.oms_err = some e →
      b.build env = Except.error (CommsBuilderError.OutboundMessageServiceError e)) ∧
    (∀ id e, b.node_identity = some id → env.peer_manager_err = none →
      env.oms_err = none → env.omp_err = some e →
      b.build env = Except.error (CommsBuilderError.OutboundMessagePoolError e)) := by
  refine ⟨fun h => ?_, fun id e hid hpm => ?_, fun id e hid hpm homs => ?_,
    fun id e hid hpm homs homp => ?_⟩
  · unfold CommsBuilder.build; rw [h]
  · unfold CommsBuilder.build; rw [hid, hpm]
  · unfold CommsBuilder.build; rw [hid, hpm, homs]
  · unfold CommsBuilder.build; rw [hid, hpm, homs, homp]

/-- Witness for C10: an empty builder yields `NodeIdentityNotSet`; with an
identity but no routes, a failing peer-manager construction yields
`PeerManagerError` rather than `RoutesNotDefined`. -/
theorem build_routes_checked_late_witness :
    (CommsBuilder.new Nat).build envAllOk
      = Except.error CommsBuilderError.NodeIdentityNotSet ∧
    ((CommsBuilder.new Nat).with_node_identity ⟨11⟩).build ⟨⟨1⟩, ⟨2⟩, some 42, none, none, none⟩
      = Except.error (CommsBuilderError.PeerManagerError 42) ∧
    ((CommsBuilder.new Nat).with_node_identity ⟨11⟩).build ⟨⟨1⟩, ⟨2⟩, none, some 43, none, none⟩
      = Except.error (CommsBuilderError.OutboundMessageServiceError 43) ∧
    ((CommsBuilder.new Nat).with_node_identity ⟨11⟩).build ⟨⟨1⟩, ⟨2⟩, none, none, some 44, none⟩
      = Except.error (CommsBuilderError.OutboundMessagePoolError 44) :=
  ⟨(build_routes_checked_late (CommsBuilder.new Nat) envAllOk rfl).1 rfl,
    (build_routes_checked_late ((CommsBuilder.new Nat).with_node_identity ⟨11⟩)
      ⟨⟨1⟩, ⟨2⟩, some 42, none, none, none⟩ rfl).2.1 ⟨11⟩ 42 rfl rfl,
    (build_routes_checked_late ((CommsBuilder.new Nat).with_node_identity ⟨11⟩)
      ⟨⟨1⟩, ⟨2⟩, none, some 43, none, none⟩ rfl).2.2.1 ⟨11⟩ 43 rfl rfl rfl,
    (build_routes_checked_late ((CommsBuilder.new Nat).with_node_identity ⟨11⟩)
      ⟨⟨1⟩, ⟨2⟩, none, none, some 44, none⟩ rfl).2.2.2 ⟨11⟩ 44 rfl rfl rfl rfl⟩

/-- The error-flag fold in `check_clean_shutdown` computes the disjunction of
the accumulator with "some result is an error". -/
theorem check_clean_foldl_eq_any (results : List (Except CommsServicesError Unit))
    (acc : Bool) :
    results.foldl
      (fun acc result =>
        match result with
        | Except.error _ => true
        | Except.ok _ => acc)
      acc = (acc || results.any exceptIsError) := by
  induction results generalizing acc with
  | nil => simp
  | cons r rs ih =>
    cases r with
    | error e => simp [List.foldl, List.any, ih, exceptIsError]
    | ok u => simp [List.foldl, List.any, ih, exceptIsError]

/-- `check_clean_shutdown` errs with `UncleanShutdown` exactly when some
recorded result is a failure, and returns unit success otherwise. -/
theorem check_clean_shutdown_spec (results : List (Except CommsServicesError Unit)) :
    (check_clean_shutdown results = Except.error CommsServicesError.UncleanShutdown ↔
      results.any exceptIsError = true) ∧
    (results.any exceptIsError = false → check_clean_shutdown results = Except.ok ()) := by
  unfold check_clean_shutdown
  rw [check_clean_foldl_eq_any]
  cases h : results.any exceptIsError with
  | false => simp
  | true => simp

/-- Claim C3: `shutdown()` returns `UncleanShutdown` if and only if at least
one recorded per-service result is a failure, and success otherwise; and
recording is not short-circuited — whenever exclusive ownership of the
connection manager is reclaimed, its sub-results are appended to the record
after the control-service result, regardless of whether the latter failed. -/
theorem shutdown_unclean_iff {MType : Type} (s : CommsServices MType)
    (env : ShutdownEnv) :
    (s.shutdown env = Except.error CommsServicesError.UncleanShutdown ↔
      (s.shutdown_results env).any exceptIsError = true) ∧
    ((s.shutdown_results env).any exceptIsError = false →
      s.shutdown env = Except.ok ()) ∧
    (env.conn_manager_exclusive = true →
      s.shutdown_results env
        = control_service_shutdown_results s env
            ++ connection_manager_shutdown_results env) := by
  refine ⟨(check_clean_shutdown_spec (s.shutdown_results env)).1,
    (check_clean_shutdown_spec (s.shutdown_results env)).2, fun hex => ?_⟩
  unfold CommsServices.shutdown_results
  rw [hex]
  simp

/-- A concrete running node used by the shutdown witnesses: control-service
handle present. -/
def nodeWithHandle : CommsServices Nat :=
  { outbound_message_service := ⟨⟨11⟩, ⟨2⟩, ⟨false⟩⟩
    routes := ⟨[(1, ⟨5⟩)]⟩
    control_service_handle := some ⟨⟨⟨11⟩, ⟨3⟩⟩⟩
    connection_manager := ⟨⟨11⟩, ⟨false⟩, ⟨⟨9⟩, 0⟩⟩ }

/-- Witness for C3: with a failing control-service shutdown and a reclaimed
connection manager whose sub-results are all Ok, the connection-manager
results are still recorded after the failure and the verdict is
`UncleanShutdown`; with every recorded result Ok the verdict is success. -/
theorem shutdown_unclean_iff_witness :
    nodeWithHandle.shutdown ⟨some 7, true, [none, none]⟩
      = Except.error CommsServicesError.UncleanShutdown ∧
    nodeWithHandle.shutdown_results ⟨some 7, true, [none, none]⟩
      = control_service_shutdown_results nodeWithHandle ⟨some 7, true, [none, none]⟩
          ++ connection_manager_shutdown_results ⟨some 7, true, [none, none]⟩ ∧
    nodeWithHandle.shutdown ⟨none, true, [none, none]⟩ = Except.ok () :=
  ⟨(shutdown_unclean_iff nodeWithHandle ⟨some 7, true, [none, none]⟩).1.mpr (by decide),
    (shutdown_unclean_iff nodeWithHandle ⟨some 7, true, [none, none]⟩).2.2 rfl,
    (shutdown_unclean_iff nodeWithHandle ⟨none, true, [none, none]⟩).2.1 (by decide)⟩

/-- Claim C4: when exclusive ownership of the connection manager cannot be
reclaimed, its shutdown is skipped and nothing about it is recorded — the
record is exactly the control-service result — so if the control-service
shutdown succeeded (or no handle exists), `shutdown()` returns success even
though the connection manager was never terminated. -/
theorem shutdown_skip_not_a_failure {MType : Type} (s : CommsServices MType)
    (env : ShutdownEnv) (hex : env.conn_manager_exclusive = false) :
    s.shutdown_results env = control_service_shutdown_results s env ∧
    (env.control_shutdown_err = none → s.shutdown env = Except.ok ()) := by
  have hres : s.shutdown_results env = control_service_shutdown_results s env := by
    unfold CommsServices.shutdown_results
    rw [hex]
    simp
  refine ⟨hres, fun hctl => ?_⟩
  unfold CommsServices.shutdown
  rw [hres]
  unfold control_service_shutdown_results
  cases s.control_service_handle with
  | none => rfl
  | some hnd => rw [hctl]; rfl

/-- Witness for C4: ownership not reclaimable, control shutdown Ok, and
connection-manager sub-results that would each have been failures — yet the
record holds only the control result and the verdict is success. -/
theorem shutdown_skip_not_a_failure_witness :
    nodeWithHandle.shutdown_results ⟨none, false, [some 7, some 8]⟩
      = control_service_shutdown_results nodeWithHandle ⟨none, false, [some 7, some 8]⟩ ∧
    nodeWithHandle.shutdown ⟨none, false, [some 7, some 8]⟩ = Except.ok () :=
  ⟨(shutdown_skip_not_a_failure nodeWithHandle ⟨none, false, [some 7, some 8]⟩ rfl).1,
    (shutdown_skip_not_a_failure nodeWithHandle ⟨none, false, [some 7, some 8]⟩ rfl).2 rfl⟩

/-- Claim C5: on a container with a control service (listener) present, a
serve failure makes `start()` fail with `ControlServiceError` with only the
listener-serve invocation in the trace — neither the inbound message service
nor the outbound message pool is started; on serve success the invocation
order is listener, then inbound message service, then outbound message pool,
and a running node is returned. -/
theorem start_order_and_abort {MType : Type} (c : CommsServiceContainer MType)
    (env : StartEnv) (cs : ControlService) (hcs : c.control_service = some cs) :
    (∀ e, env.serve_err = some e →
      c.start env = (Except.error (CommsServicesError.ControlServiceError e),
        [StartEvent.controlServiceServe])) ∧
    (env.serve_err = none →
      (c.start env).2 = [StartEvent.controlServiceServe,
        StartEvent.inboundMessageServiceStart, StartEvent.outboundMessagePoolStart] ∧
      (c.start env).1
        = Except.ok
            { outbound_message_service := c.outbound_message_service
              routes := c.routes
              control_service_handle := some ⟨cs⟩
              connection_manager := c.connection_manager }) := by
  refine ⟨fun e hserve => ?_, fun hserve => ?_⟩
  · unfold CommsServiceContainer.start
    rw [hcs, hserve]
  · unfold CommsServiceContainer.start
    rw [hcs, hserve]
    exact ⟨rfl, rfl⟩

/-- A concrete not-yet-started container used by the start witness, with a
control service present. -/
def containerWithControl : CommsServiceContainer Nat :=
  { routes := ⟨[(1, ⟨5⟩)]⟩
    connection_manager := ⟨⟨11⟩, ⟨false⟩, ⟨⟨9⟩, 0⟩⟩
    control_service := some ⟨⟨11⟩, ⟨3⟩⟩
    inbound_message_service := ⟨⟨11⟩, ⟨9⟩, ⟨[(1, ⟨5⟩)]⟩, ⟨⟨11⟩, ⟨2⟩, ⟨false⟩⟩, ⟨false⟩⟩
    outbound_message_pool := ⟨⟨0⟩, ⟨2⟩, ⟨2⟩, ⟨false⟩, ⟨⟨11⟩, ⟨false⟩, ⟨⟨9⟩, 0⟩⟩⟩
    outbound_message_service := ⟨⟨11⟩, ⟨2⟩, ⟨false⟩⟩ }

/-- Witness for C5: a failing serve aborts with `ControlServiceError` and a
listener-only trace; a successful serve starts all three in order. -/
theorem start_order_and_abort_witness :
    containerWithControl.start ⟨some 6⟩
      = (Except.error (CommsServicesError.ControlServiceError 6),
          [StartEvent.controlServiceServe]) ∧
    (containerWithControl.start ⟨none⟩).2
      = [StartEvent.controlServiceServe, StartEvent.inboundMessageServiceStart,
          StartEvent.outboundMessagePoolStart] :=
  ⟨(start_order_and_abort containerWithControl ⟨some 6⟩ ⟨⟨11⟩, ⟨3⟩⟩ rfl).1 6 rfl,
    ((start_order_and_abort containerWithControl ⟨none⟩ ⟨⟨11⟩, ⟨3⟩⟩ rfl).2 rfl).1⟩

/-- Claim C6: on a successful `build()` whose supplied peer-connection
configuration left the message-sink address at the default value, the address
is replaced by the freshly generated in-process address, and the inbound
message service is bound to exactly that address — the same one held in the
connection manager's peer-connection configuration. -/
theorem build_replaces_default_sink_address {MType : Type} (b : CommsBuilder MType)
    (env : BuildEnv) (c : CommsServiceContainer MType) (cfg : PeerConnectionConfig)
    (hcfg : b.peer_conn_config = some cfg)
    (hdef : cfg.message_sink_address.is_default = true)
    (hb : b.build env = Except.ok c) :
    c.inbound_message_service.message_sink_address = env.peer_sink_fresh ∧
    c.connection_manager.config.message_sink_address = env.peer_sink_fresh := by
  obtain ⟨id, routes, hid, hroutes, hpm, homs, homp, hims, hc⟩ :=
    build_ok_characterization b env c hb
  subst hc
  unfold built_container CommsBuilder.make_peer_connection_config
  rw [hcfg]
  simp [hdef]

/-- A concrete builder whose peer-connection configuration carries the default
sink address. -/
def builderDefaultSink : CommsBuilder Nat :=
  (((CommsBuilder.new Nat).with_node_identity ⟨11⟩).with_routes
    ⟨[(1, ⟨5⟩)]⟩).configure_peer_connections ⟨⟨0⟩, 3⟩

/-- The container `builderDefaultSink` builds under `envAllOk`. -/
def containerDefaultSink : CommsServiceContainer Nat :=
  built_container builderDefaultSink envAllOk ⟨11⟩ ⟨[(1, ⟨5⟩)]⟩

/-- Witness for C6: a supplied configuration with the default sink address is
resolved, on a successful build, to the fresh draw in both the inbound
message service and the connection manager's configuration. -/
theorem build_replaces_default_sink_address_witness :
    builderDefaultSink.build envAllOk = Except.ok containerDefaultSink ∧
    containerDefaultSink.inbound_message_service.message_sink_address
      = envAllOk.peer_sink_fresh ∧
    containerDefaultSink.connection_manager.config.message_sink_address
      = envAllOk.peer_sink_fresh := by
  have h := build_replaces_default_sink_address builderDefaultSink envAllOk
    containerDefaultSink ⟨⟨0⟩, 3⟩ rfl rfl rfl
  exact ⟨rfl, h.1, h.2⟩

/-- Claim C7: a peer-connection configuration supplied with an explicit
(non-default) message-sink address is preserved verbatim by `build()` — the
connection manager receives exactly the supplied configuration and the
inbound message service is bound to the supplied address. -/
theorem build_preserves_explicit_sink_address {MType : Type} (b : CommsBuilder MType)
    (env : BuildEnv) (c : CommsServiceContainer MType) (cfg : PeerConnectionConfig)
    (hcfg : b.peer_conn_config = some cfg)
    (hnd : cfg.message_sink_address.is_default = false)
    (hb : b.build env = Except.ok c) :
    c.connection_manager.config = cfg ∧
    c.inbound_message_service.message_sink_address = cfg.message_sink_address := by
  obtain ⟨id, routes, hid, hroutes, hpm, homs, homp, hims, hc⟩ :=
    build_ok_characterization b env c hb
  subst hc
  unfold built_container CommsBuilder.make_peer_connection_config
  rw [hcfg]
  simp [hnd]

/-- A concrete builder whose peer-connection configuration carries an explicit
non-default sink address. -/
def builderExplicitSink : CommsBuilder Nat :=
  (((CommsBuilder.new Nat).with_node_identity ⟨11⟩).with_routes
    ⟨[(1, ⟨5⟩)]⟩).configure_peer_connections ⟨⟨9⟩, 3⟩

/-- The container `builderExplicitSink` builds under `envAllOk`. -/
def containerExplicitSink : CommsServiceContainer Nat :=
  built_container builderExplicitSink envAllOk ⟨11⟩ ⟨[(1, ⟨5⟩)]⟩

/-- Witness for C7: an explicit sink address ⟨9⟩ survives the build unchanged
even though the fresh draw was ⟨1⟩. -/
theorem build_preserves_explicit_sink_address_witness :
    builderExplicitSink.build envAllOk = Except.ok containerExplicitSink ∧
    containerExplicitSink.connection_manager.config = ⟨⟨9⟩, 3⟩ ∧
    containerExplicitSink.inbound_message_service.message_sink_address = ⟨9⟩ := by
  have h := build_preserves_explicit_sink_address builderExplicitSink envAllOk
    containerExplicitSink ⟨⟨9⟩, 3⟩ rfl rfl rfl
  exact ⟨rfl, h.1, h.2⟩

/-- Claim C8: every successful `build()` wires the outbound message pool's
intake address and its self-requeue address to one and the same address — the
freshly generated outbound sink address the outbound message service was
constructed with. -/
theorem build_outbound_sink_wiring {MType : Type} (b : CommsBuilder MType)
    (env : BuildEnv) (c : CommsServiceContainer MType)
    (hb : b.build env = Except.ok c) :
    c.outbound_message_pool.message_sink_address
      = c.outbound_message_service.message_sink_address ∧
    c.outbound_message_pool.requeue_address
      = c.outbound_message_service.message_sink_address ∧
    c.outbound_message_service.message_sink_address = env.outbound_sink_fresh := by
  obtain ⟨id, routes, hid, hroutes, hpm, homs, homp, hims, hc⟩ :=
    build_ok_characterization b env c hb
  subst hc
  exact ⟨rfl, rfl, rfl⟩

/-- Witness for C8: on a concrete successful build, intake, requeue and the
outbound service's sink address all equal the fresh outbound draw ⟨2⟩. -/
theorem build_outbound_sink_wiring_witness :
    builderExplicitSink.build envAllOk = Except.ok containerExplicitSink ∧
    containerExplicitSink.outbound_message_pool.message_sink_address = ⟨2⟩ ∧
    containerExplicitSink.outbound_message_pool.requeue_address = ⟨2⟩ ∧
    containerExplicitSink.outbound_message_service.message_sink_address = ⟨2⟩ := by
  have h := build_outbound_sink_wiring builderExplicitSink envAllOk
    containerExplicitSink rfl
  exact ⟨rfl, h.1.trans h.2.2, h.2.1.trans h.2.2, h.2.2⟩

/-- Claim C9: `create_connector` fails with `MessageTypeNotRegistered` exactly
when the message type is absent from the node's route table; when the type is
registered it opens a connector bound to the address the table maps it to,
failing only with `ConnectorError` when the underlying bind fails. -/
theorem create_connector_lookup {MType : Type} [DecidableEq MType]
    (s : CommsServices MType) (env : ConnectorEnv) (message_type : MType) :
    (s.create_connector env message_type
        = Except.error CommsServicesError.MessageTypeNotRegistered ↔
      s.routes.get_address message_type = none) ∧
    (∀ addr, s.routes.get_address message_type = some addr →
      (env.listen_err addr = none →
        s.create_connector env message_type = Except.ok ⟨addr⟩) ∧
      (∀ e, env.listen_err addr = some e →
        s.create_connector env message_type
          = Except.error (CommsServicesError.ConnectorError e))) := by
  constructor
  · constructor
    · intro h
      unfold CommsServices.create_connector at h
      split at h
      · assumption
      · split at h
        · exact CommsServicesError.noConfusion (Except.error.inj h)
        · exact Except.noConfusion h
    · intro h
      unfold CommsServices.create_connector
      rw [h]
  · intro addr haddr
    constructor
    · intro hle
      unfold CommsServices.create_connector
      rw [haddr]
      split
      · next heq => exact Option.noConfusion heq
      · next a heq =>
          cases Option.some.inj heq
          split
          · next e2 heq2 =>
              rw [hle] at heq2
              exact Option.noConfusion heq2
          · rfl
    · intro e hle
      unfold CommsServices.create_connector
      rw [haddr]
      split
      · next heq => exact Option.noConfusion heq
      · next a heq =>
          cases Option.some.inj heq
          split
          · next e2 heq2 =>
              rw [hle] at heq2
              cases Option.some.inj heq2
              rfl
          · next heq2 =>
              rw [hle] at heq2
              exact Option.noConfusion heq2

/-- A concrete running node with routes for message types 1 and 2, used by the
connector witness. -/
def nodeTwoRoutes : CommsServices Nat :=
  { outbound_message_service := ⟨⟨11⟩, ⟨2⟩, ⟨false⟩⟩
    routes := ⟨[(1, ⟨5⟩), (2, ⟨6⟩)]⟩
    control_service_handle := none
    connection_manager := ⟨⟨11⟩, ⟨false⟩, ⟨⟨9⟩, 0⟩⟩ }

/-- A concrete bind environment: binding to address ⟨6⟩ fails with error 3,
other binds succeed. -/
def bindFailsAtSix : ConnectorEnv :=
  ⟨fun a => if a = ⟨6⟩ then some 3 else none⟩

/-- Witness for C9: registered type 1 opens a connector on its mapped address,
registered type 2 surfaces the bind failure as `ConnectorError`, and
unregistered type 7 fails with `MessageTypeNotRegistered`. -/
theorem create_connector_lookup_witness :
    nodeTwoRoutes.create_connector bindFailsAtSix 1 = Except.ok ⟨⟨5⟩⟩ ∧
    nodeTwoRoutes.create_connector bindFailsAtSix 2
      = Except.error (CommsServicesError.ConnectorError 3) ∧
    nodeTwoRoutes.create_connector bindFailsAtSix 7
      = Except.error CommsServicesError.MessageTypeNotRegistered :=
  ⟨((create_connector_lookup nodeTwoRoutes bindFailsAtSix 1).2 ⟨5⟩ rfl).1 rfl,
    ((create_connector_lookup nodeTwoRoutes bindFailsAtSix 2).2 ⟨6⟩ rfl).2 3 rfl,
    (create_connector_lookup nodeTwoRoutes bindFailsAtSix 7).1.mpr rfl⟩
